import Mathlib

set_option linter.unnecessarySeqFocus false

/-!
Verification development for the puya-ts compiler server.

The repository contains two snapshots of the HTTP server:
src/server.js (the earlier variant, called ServerJs below) and
src/unnamed/part_000 (the later, fixed variant, called Part000 below).
Both expose a POST compile endpoint; Part000 additionally exposes a
POST generate-client endpoint.

The embedding below is a shallow model of the request handlers and their
helper functions.  Pure string manipulation (escape decoding, filename
sanitization, suffix filtering, brace counting, brace trimming) is
translated directly from the JavaScript.  Platform services are modelled
explicitly:

* the child process is modelled by ProcBehavior (it either exits before
  the timeout with an exit code and captured stdout/stderr, is still
  running when the timeout fires, or fails to spawn), and runCommand maps
  such a behavior to the promise outcome exactly as the close/error/timeout
  handlers in the source do;
* the filesystem under the output directory is modelled by FSNode (a
  first-child/next-sibling tree of directories and regular files); a
  regular file carries the result of reading it as utf8 (some text, or
  none when decoding fails) together with its raw bytes encoded base64,
  mirroring the try/catch around fs.readFileSync;
* mkdtempSync and writeFileSync/cpSync are modelled by success booleans
  (their failure is observed by the handlers only as a thrown error);
  rmSync failure is a boolean that the cleanup code swallows;
* JSON.parse and the regular-expression engine used by
  tryRecoverCodeFromString are platform functions and are passed in as an
  Oracles record of abstract functions; JSON.stringify with two-space
  indent is modelled concretely by stringify2 over a Json value type.

Response texts that contain apostrophes in the source are reproduced
without the apostrophes; no claim depends on the exact message text.
-/

/-- Boolean test that pat is a prefix of l (character lists). -/
def hasPrefixC : List Char → List Char → Bool
  | _, [] => true
  | [], _ :: _ => false
  | c :: cs, p :: ps => c = p && hasPrefixC cs ps

/-- Boolean test that pat occurs as a contiguous substring of l. -/
def hasSubC : List Char → List Char → Bool
  | [], pat => pat.isEmpty
  | l@(_ :: cs), pat => hasPrefixC l pat || hasSubC cs pat

/-- Model of the JavaScript String.prototype.includes test. -/
def hasSubstr (s pat : String) : Bool := hasSubC s.data pat.data

/-- Fuelled left-to-right non-overlapping replacement of a pattern, the
semantics of JavaScript String.prototype.replace with a global literal
pattern.  Each step consumes at least one character, so fuel equal to the
length of the input is always sufficient. -/
def replaceAllFuel : Nat → List Char → List Char → List Char → List Char
  | 0, l, _, _ => l
  | _ + 1, [], _, _ => []
  | f + 1, c :: cs, pat, rep =>
    if !pat.isEmpty && hasPrefixC (c :: cs) pat then
      rep ++ replaceAllFuel f ((c :: cs).drop pat.length) pat rep
    else
      c :: replaceAllFuel f cs pat rep

/-- Replacement of every occurrence of pat in l by rep. -/
def replaceAllC (l pat rep : List Char) : List Char := replaceAllFuel l.length l pat rep

/-- Model of the escape-decoding chain used by ServerJs (lines 180-181 and
120): replace literal backslash-r backslash-n, backslash-n, backslash-t and
backslash-quote by the real characters, in that order. -/
def decodeEscapes (s : String) : String :=
  String.mk
    (replaceAllC
      (replaceAllC
        (replaceAllC
          (replaceAllC s.data ['\\', 'r', '\\', 'n'] ['\r', '\n'])
          ['\\', 'n'] ['\n'])
        ['\\', 't'] ['\t'])
      ['\\', '"'] ['"'])

/-- Condition of ServerJs line 180: the source still contains one of the
literal two-character escape sequences. -/
def needsDecode (s : String) : Bool :=
  hasSubstr s "\\n" || hasSubstr s "\\r\\n" || hasSubstr s "\\t" || hasSubstr s "\\\""

/-- Whitespace characters removed by the trim check on the code field. -/
def isWsChar (c : Char) : Bool :=
  c = ' ' || c = '\t' || c = '\n' || c = '\r' || c = '\x0b' || c = '\x0c'

/-- Model of the JavaScript test (not s or not s.trim()): the string is
empty or consists of whitespace only. -/
def isBlank (s : String) : Bool := s.data.all isWsChar

/-- Drop trailing slash characters, first phase of path.basename. -/
def stripTrailingSlashes (l : List Char) : List Char :=
  (l.reverse.dropWhile (fun c => c = '/')).reverse

/-- Characters after the last slash. -/
def lastComponent (l : List Char) : List Char :=
  (l.reverse.takeWhile (fun c => c ≠ '/')).reverse

/-- Model of Node path.basename on POSIX paths: strip trailing slashes,
then keep everything after the last remaining slash. -/
def nodeBasename (s : String) : String :=
  String.mk (lastComponent (stripTrailingSlashes s.data))

/-- Model of the JavaScript falsy-coalescing f or default used for the
filename field: an absent or empty filename becomes the fixed default. -/
def orDefaultName : Option String → String
  | none => "contract.algo.ts"
  | some f => if f = "" then "contract.algo.ts" else f

/-- The sanitized filename actually used for writing: path.basename of the
effective filename, with the fixed default substituted when the basename is
empty (both handlers, ServerJs line 185 and Part000 line 146). -/
def safeName (fn : Option String) : String :=
  if nodeBasename (orDefaultName fn) = "" then "contract.algo.ts"
  else nodeBasename (orDefaultName fn)

/-- Split a character list on slash characters (the segments path.join
normalization operates on). -/
def splitOnSlash : List Char → List (List Char)
  | [] => [[]]
  | c :: cs =>
    match splitOnSlash cs with
    | [] => [[]]
    | g :: gs => if c = '/' then [] :: g :: gs else (c :: g) :: gs

/-- One step of path normalization: empty and dot segments are skipped and
a dot-dot segment removes the last directory, as path.join does. -/
def applySeg (base : List String) (seg : String) : List String :=
  if seg = "" then base
  else if seg = "." then base
  else if seg = ".." then base.dropLast
  else base ++ [seg]

/-- Model of path.join(workDir, comp) followed by normalization, returning
the resolved path as a list of segments appended to the workDir segments. -/
def resolveJoin (base : List String) (comp : String) : List String :=
  ((splitOnSlash comp.data).map (fun l => String.mk l)).foldl applySeg base

/-- Boolean list-prefix test on path segments. -/
def isPrefixL : List String → List String → Bool
  | [], _ => true
  | _ :: _, [] => false
  | a :: as, b :: bs => if a = b then isPrefixL as bs else false

/-- A path lies strictly inside base when base is a proper prefix of it. -/
def isInsideB (base p : List String) : Bool :=
  isPrefixL base p && decide (base.length < p.length)

/-- Count of quote and brace characters, ServerJs line 163. -/
def countBraceQuote (s : String) : Nat :=
  (s.data.filter (fun c => c = '"' || c = '\x7b' || c = '\x7d')).length

/-- Discard every character before the first opening brace; keep the raw
string unchanged when it has no opening brace (ServerJs lines 95-96). -/
def braceTrim (raw : String) : String :=
  if raw.data.contains '\x7b' then String.mk (raw.data.dropWhile (fun c => c ≠ '\x7b'))
  else raw

mutual
/-- Values produced by the platform JSON parser and consumed by
JSON.stringify.  Arrays and objects use explicit cons lists so that all
recursion over them is structural. -/
inductive Json where
  | null
  | bool (b : Bool)
  | num (n : Int)
  | str (s : String)
  | arr (items : JsonItems)
  | obj (members : JsonMembers)
inductive JsonItems where
  | nil
  | cons (hd : Json) (tl : JsonItems)
inductive JsonMembers where
  | nil
  | cons (key : String) (val : Json) (tl : JsonMembers)
end

/-- JavaScript truthiness of a JSON value: null, false, zero and the empty
string are falsy, everything else is truthy. -/
def jsTruthyB : Json → Bool
  | .null => false
  | .bool b => b
  | .num n => n ≠ 0
  | .str s => s ≠ ""
  | .arr _ => true
  | .obj _ => true

/-- JavaScript typeof v === "object" (true for objects, arrays and null). -/
def isObjTypeof : Json → Bool
  | .null => true
  | .arr _ => true
  | .obj _ => true
  | _ => false

/-- JavaScript typeof v === "string". -/
def isStrJson : Json → Bool
  | .str _ => true
  | _ => false

/-- Property lookup on a parsed object; anything but an object yields
undefined. -/
def getMember : JsonMembers → String → Option Json
  | .nil, _ => none
  | .cons k v tl, key => if k = key then some v else getMember tl key

/-- Field access parsed.key used by tryRecoverCodeFromString. -/
def getField : Json → String → Option Json
  | .obj ms, key => getMember ms key
  | _, _ => none

/-- String-valued field access; a non-string or absent field gives none
(the handlers only ever use string filename fields). -/
def getStrField (v : Json) (key : String) : Option String :=
  match getField v key with
  | some (.str s) => some s
  | _ => none

/-- Lower-case hexadecimal digit. -/
def hexDigit (n : Nat) : Char :=
  if n < 10 then Char.ofNat (48 + n) else Char.ofNat (87 + n)

/-- JSON string escaping as performed by JSON.stringify. -/
def escapeJsonChar (c : Char) : List Char :=
  if c = '"' then ['\\', '"']
  else if c = '\\' then ['\\', '\\']
  else if c = '\n' then ['\\', 'n']
  else if c = '\r' then ['\\', 'r']
  else if c = '\t' then ['\\', 't']
  else if c = '\x08' then ['\\', 'b']
  else if c = '\x0c' then ['\\', 'f']
  else if c.toNat < 32 then ['\\', 'u', '0', '0', hexDigit (c.toNat / 16), hexDigit (c.toNat % 16)]
  else [c]

/-- Quoted and escaped JSON string literal. -/
def jsonQuote (s : String) : String :=
  String.mk ('"' :: ((s.data.map escapeJsonChar).flatten ++ ['"']))

/-- Indentation of n spaces. -/
def spaces (n : Nat) : String := String.mk (List.replicate n ' ')

/-- Join with a separator. -/
def joinSep (sep : String) : List String → String
  | [] => ""
  | [x] => x
  | x :: y :: rest => x ++ sep ++ joinSep sep (y :: rest)

mutual
/-- Model of JSON.stringify(v, null, 2) at a given current indent. -/
def stringifyV (ind : Nat) : Json → String
  | .null => "null"
  | .bool true => "true"
  | .bool false => "false"
  | .num n => toString n
  | .str s => jsonQuote s
  | .arr .nil => "[]"
  | .arr xs => "[\n" ++ joinSep ",\n" (stringifyItems (ind + 2) xs) ++ "\n" ++ spaces ind ++ "]"
  | .obj .nil => "\x7b\x7d"
  | .obj kvs => "\x7b\n" ++ joinSep ",\n" (stringifyMembers (ind + 2) kvs) ++ "\n" ++ spaces ind ++ "\x7d"
/-- Rendered array items, each on its own indented line. -/
def stringifyItems (ind : Nat) : JsonItems → List String
  | .nil => []
  | .cons x tl => (spaces ind ++ stringifyV ind x) :: stringifyItems ind tl
/-- Rendered object members, each on its own indented line. -/
def stringifyMembers (ind : Nat) : JsonMembers → List String
  | .nil => []
  | .cons k v tl => (spaces ind ++ jsonQuote k ++ ": " ++ stringifyV ind v) :: stringifyMembers ind tl
end

/-- Model of JSON.stringify(v, null, 2) as called at Part000 line 235. -/
def stringify2 (v : Json) : String := stringifyV 0 v

/-- Behavior of the spawned child process, abstracting the timing into
three mutually exclusive cases: the process exits (with code and captured
streams) before the timeout clock elapses, the process is still running
when the clock elapses (with the stderr captured so far), or the spawn
itself fails and the error event fires. -/
inductive ProcBehavior where
  | exits (code : Int) (stdout stderr : String)
  | hangs (stderrSoFar : String)
  | spawnFail (msg : String)
deriving DecidableEq

/-- Settlement of the promise returned by runCommand. -/
inductive RunOutcome where
  | resolved (stdout stderr : String)
  | rejectedExit (code : Int) (stderr : String)
  | rejectedTimeout (stderr : String)
  | rejectedSpawn (msg : String)
deriving DecidableEq

/-- Message of the error rejected on a non-zero exit code. -/
def exitMsg (code : Int) (stderr : String) : String :=
  "Process exited with code " ++ toString code ++ "\n" ++ stderr

/-- Message of the error rejected when the timeout fires. -/
def timeoutMsg (tms : Nat) (stderr : String) : String :=
  "Process timed out after " ++ toString tms ++ "ms\n" ++ stderr

namespace ServerJs

/-- Model of runCommand in src/server.js (lines 36-68): the outcome of the
promise together with the kill signal sent, if any.  A non-zero exit code
always rejects with the code and the captured stderr; a process still
running at the timeout is killed with SIGKILL and the promise rejects with
the stderr captured so far; a spawn error rejects with its message. -/
def runCommand : ProcBehavior → RunOutcome × Option String
  | .exits code out err =>
    (if code ≠ 0 then .rejectedExit code err else .resolved out err, none)
  | .hangs err => (.rejectedTimeout err, some "SIGKILL")
  | .spawnFail m => (.rejectedSpawn m, none)

end ServerJs

namespace Part000

/-- Model of runCommand in src/unnamed/part_000 (lines 35-74).  It differs
from the ServerJs variant in the close handler (line 65): a non-zero exit
whose captured stderr contains the text SuppressedError is resolved as a
success instead of being rejected. -/
def runCommand : ProcBehavior → RunOutcome × Option String
  | .exits code out err =>
    (if code ≠ 0 ∧ hasSubstr err "SuppressedError" = false then .rejectedExit code err
     else .resolved out err, none)
  | .hangs err => (.rejectedTimeout err, some "SIGKILL")
  | .spawnFail m => (.rejectedSpawn m, none)

end Part000

/-- Result of reading one regular file: the utf8 read either yields text or
throws (none), in which case the raw bytes are re-read and base64 encoded. -/
structure FileC where
  utf8 : Option String
  b64 : String
deriving DecidableEq

/-- Directory tree in first-child/next-sibling form, preserving the
readdirSync entry order. -/
inductive FSNode where
  | nilNode
  | fileNode (name : String) (content : FileC) (next : FSNode)
  | dirNode (name : String) (children : FSNode) (next : FSNode)
deriving DecidableEq

/-- One artifact entry of the response: an encoding marker and the data. -/
structure Artifact where
  encoding : String
  data : String
deriving DecidableEq

/-- Relative path of an entry under the walk root (path.join(base, name)
for simple names). -/
def joinRel (base name : String) : String :=
  if base = "" then name else base ++ "/" ++ name

/-- Encoding step of readAllFilesRecursively: utf8 text when the utf8 read
succeeded, otherwise the base64 bytes with the binary marker. -/
def encodeFile (c : FileC) : Artifact :=
  match c.utf8 with
  | some s => ⟨"utf8", s⟩
  | none => ⟨"base64", c.b64⟩

/-- The walk of readAllFilesRecursively (identical in both sources):
directories are entered immediately in entry order, regular files are
recorded under their relative path. -/
def walkNodes (base : String) : FSNode → List (String × Artifact)
  | .nilNode => []
  | .fileNode name c next => (joinRel base name, encodeFile c) :: walkNodes base next
  | .dirNode name children next =>
      walkNodes (joinRel base name) children ++ walkNodes base next

/-- Model of readAllFilesRecursively (ServerJs lines 70-89, Part000 lines
76-95): an absent root directory yields the empty set, otherwise the tree
is walked. -/
def readAllFilesRecursively : Option FSNode → List (String × Artifact)
  | none => []
  | some root => walkNodes "" root

/-- Raw flattening of the same tree: every regular file with its relative
path and unencoded read result. -/
def flattenNodes (base : String) : FSNode → List (String × FileC)
  | .nilNode => []
  | .fileNode name c next => (joinRel base name, c) :: flattenNodes base next
  | .dirNode name children next =>
      flattenNodes (joinRel base name) children ++ flattenNodes base next

/-- Encoding applied to one flattened entry. -/
def encodePair (p : String × FileC) : String × Artifact := (p.1, encodeFile p.2)

/-- Suffix filter of Part000 lines 185-189: keep only arc32/arc56 JSON
artifacts. -/
def isWantedArtifact (name : String) : Bool :=
  hasPrefixC name.data.reverse ".arc32.json".data.reverse ||
  hasPrefixC name.data.reverse ".arc56.json".data.reverse

/-- Restriction of the collected artifact set to the wanted suffixes. -/
def artifactFilter (l : List (String × Artifact)) : List (String × Artifact) :=
  l.filter (fun p => isWantedArtifact p.1)

/-- Structured request body as the handlers see req.body: the filename
field when it is a string, and the code field when it is a string (none
covers both an absent and a non-string field; non-string filename values
are not modelled). -/
structure BodyC where
  filename : Option String
  code : Option String
deriving DecidableEq

/-- Platform functions used by the tolerant payload recovery of ServerJs,
passed in abstractly: JSON.parse on the brace-trimmed body, JSON.parse on
a wrapped single string literal, and the two regular-expression searches
for the code capture and the filename capture. -/
structure Oracles where
  jsonParse : String → Option Json
  jsonParseStr : String → Option String
  regexCode : String → Option String
  regexFilename : String → Option String

/-- Result of payload recovery: a filename/code pair (filename already
falsy-coalesced to the default as the handler does), or a client-error
response. -/
inductive RecoverOut where
  | ok (filename : String) (code : String)
  | malformed (status : Nat) (error : String)
deriving DecidableEq

/-- Message of the invalid-body client error. -/
def invalidBodyMsg : String :=
  "Invalid request body. Expected JSON with \x7b filename, code \x7d."

/-- Message of the empty-code client error. -/
def emptyCodeMsg : String := "Field code must be a non-empty string"

/-- Message of the unrecoverable-body client error of ServerJs line 168. -/
def unableMsg : String :=
  "Unable to parse JSON body and extract code. Ensure Content-Type application/json and send \x7b \"filename\", \"code\" \x7d."

/-- Placeholder message of an error thrown by sandbox setup (the real text
comes from the filesystem and is never inspected by the handlers). -/
def envErrMsg : String := "EnvironmentError"

/-- Escaping step of ServerJs line 116: every quote, optionally preceded by
a backslash, is replaced by backslash-quote. -/
def escQ : List Char → List Char
  | [] => []
  | '\\' :: '"' :: rest => '\\' :: '"' :: escQ rest
  | '"' :: rest => '\\' :: '"' :: escQ rest
  | c :: rest => c :: escQ rest

/-- The safe wrapper of ServerJs line 116: escape quotes, escape real
newlines, and wrap the capture in quotes for a string-literal parse. -/
def wrapSafe (captured : String) : String :=
  String.mk ('"' :: (replaceAllC (escQ captured.data) ['\n'] ['\\', 'n'] ++ ['"']))

/-- Unescaping of the regex capture (ServerJs lines 113-121): parse the
wrapped capture as a JSON string literal, falling back to the literal
escape replacements when that parse throws. -/
def decodedCapture (O : Oracles) (captured : String) : String :=
  match O.jsonParseStr (wrapSafe captured) with
  | some s => s
  | none => decodeEscapes captured

/-- Strict parse attempt of ServerJs lines 99-104: JSON.parse on the
brace-trimmed body, accepted when it yields a truthy object with a
string-valued code field. -/
def parseAttempt (O : Oracles) (trimmed : String) : Option (Option String × String) :=
  match O.jsonParse trimmed with
  | some p =>
    if jsTruthyB p && isObjTypeof p then
      match getField p "code" with
      | some (.str c) => some (getStrField p "filename", c)
      | _ => none
    else none
  | none => none

/-- Tolerant regex attempt of ServerJs lines 106-127: when the code capture
matches, its escapes are decoded and the filename capture is extracted
independently. -/
def regexAttempt (O : Oracles) (trimmed : String) : Option (Option String × String) :=
  match O.regexCode trimmed with
  | some captured => some (O.regexFilename trimmed, decodedCapture O captured)
  | none => none

/-- Model of tryRecoverCodeFromString (ServerJs lines 91-131): an empty raw
body is rejected, otherwise the strict parse is tried on the brace-trimmed
body and the tolerant regex extraction is tried when it fails. -/
def tryRecoverCodeFromString (O : Oracles) (raw : String) : Option (Option String × String) :=
  if raw = "" then none
  else
    match parseAttempt O (braceTrim raw) with
    | some fc => some fc
    | none => regexAttempt O (braceTrim raw)

/-- Recovery from the raw body (the rawBody arm of the ServerJs compile
handler, lines 155-173): an absent or empty raw body is a client error;
otherwise tryRecoverCodeFromString is consulted, then the verbatim-body
last resort guarded by the structural-character threshold, and finally the
client error of line 168. -/
def recoverFromRaw (O : Oracles) (raw : Option String) : RecoverOut :=
  match raw with
  | none => .malformed 400 invalidBodyMsg
  | some r =>
    if r = "" then .malformed 400 invalidBodyMsg
    else
      match tryRecoverCodeFromString O r with
      | some fc => .ok (orDefaultName fc.1) fc.2
      | none =>
        if countBraceQuote r < 5 then .ok "contract.algo.ts" r
        else .malformed 400 unableMsg

/-- Payload recovery of the ServerJs compile handler (lines 149-173): a
structured body with a string code field is used directly, otherwise the
raw body is recovered. -/
def recoverPayloadSrv (body : Option BodyC) (raw : Option String) (O : Oracles) : RecoverOut :=
  match body with
  | some b =>
    match b.code with
    | some c => .ok (orDefaultName b.filename) c
    | none => recoverFromRaw O raw
  | none => recoverFromRaw O raw

/-- Truthy raw body: none for an absent or empty string. -/
def truthyRaw : Option String → Option String
  | none => none
  | some r => if r = "" then none else some r

/-- Modelled from the spec: recovery strategy 1, a structured body with a
string-valued code field used directly. -/
def strat1 : Option BodyC → Option (String × String)
  | some b =>
    match b.code with
    | some c => some (orDefaultName b.filename, c)
    | none => none
  | none => none

/-- Modelled from the spec: recovery strategy 2, discard leading noise up
to the first opening brace and strictly parse, accepting a string code. -/
def strat2 (O : Oracles) (raw : Option String) : Option (String × String) :=
  match truthyRaw raw with
  | some r => (parseAttempt O (braceTrim r)).map (fun fc => (orDefaultName fc.1, fc.2))
  | none => none

/-- Modelled from the spec: recovery strategy 3, tolerant regex extraction
of the quoted code with escape decoding plus independent filename
extraction. -/
def strat3 (O : Oracles) (raw : Option String) : Option (String × String) :=
  match truthyRaw raw with
  | some r => (regexAttempt O (braceTrim r)).map (fun fc => (orDefaultName fc.1, fc.2))
  | none => none

/-- Modelled from the spec: recovery strategy 4, the whole raw body taken
verbatim as source when it has few structural characters. -/
def strat4 : Option String → Option (String × String)
  | raw =>
    match truthyRaw raw with
    | some r => if countBraceQuote r < 5 then some ("contract.algo.ts", r) else none
    | none => none

/-- First successful strategy of an ordered list. -/
def firstSome : List (Option (String × String)) → Option (String × String)
  | [] => none
  | none :: rest => firstSome rest
  | some x :: _ => some x

/-- Projection of a recovery result onto the recovered pair. -/
def recoverProj : RecoverOut → Option (String × String)
  | .ok f c => some (f, c)
  | .malformed _ _ => none

/-- Response as the client sees it. -/
structure Resp where
  status : Nat
  ok : Bool
  error : Option String
  files : List (String × Artifact)
deriving DecidableEq

/-- Response of the ServerJs compile handler; its catch handler also echoes
the stderr property of the rejection when present. -/
structure SrvResp where
  status : Nat
  ok : Bool
  error : Option String
  files : List (String × Artifact)
  stderrEcho : Option String
deriving DecidableEq

/-- Terminal state of one ServerJs compile request: the response, whether
the sandbox directory was created, whether its removal was attempted, and
what source text was written under which sanitized name. -/
structure SrvOut where
  resp : SrvResp
  created : Bool
  rmAttempted : Bool
  written : Option String
  writtenName : Option String
deriving DecidableEq

/-- Terminal state of one Part000 compile request. -/
structure C000Out where
  resp : Resp
  created : Bool
  rmAttempted : Bool
  rmFailed : Bool
  written : Option String
  writtenName : Option String
deriving DecidableEq

/-- Terminal state of one Part000 generate-client request. -/
structure GCOut where
  resp : Resp
  created : Bool
  spawned : Bool
  rmAttempted : Bool
  rmFailed : Bool
  writtenArc32 : Option String
deriving DecidableEq

/-- The double-escape normalization of ServerJs lines 179-182, applied only
when one of the literal sequences is present. -/
def decodeIf (code : String) : String :=
  if needsDecode code then decodeEscapes code else code

namespace ServerJs

/-- Model of the ServerJs compile handler (src/server.js lines 133-211).
Inputs: the structured body and raw body, the platform oracles, success of
mkdtempSync and of the write phase, the state of the output directory when
collected, the configured timeout, and the child process behavior.  The
handler never removes the sandbox directory on any path. -/
def compileHandler (body : Option BodyC) (raw : Option String) (O : Oracles)
    (mkOk writeOk : Bool) (outTree : Option FSNode) (tms : Nat)
    (proc : ProcBehavior) : SrvOut :=
  match recoverPayloadSrv body raw O with
  | .malformed st e => ⟨⟨st, false, some e, [], none⟩, false, false, none, none⟩
  | .ok fn code =>
    if isBlank code then
      ⟨⟨400, false, some emptyCodeMsg, [], none⟩, false, false, none, none⟩
    else if mkOk = false then
      ⟨⟨500, false, some envErrMsg, [], none⟩, false, false, none, none⟩
    else if writeOk = false then
      ⟨⟨500, false, some envErrMsg, [], none⟩, true, false, none, none⟩
    else
      match (runCommand proc).1 with
      | .resolved _ _ =>
        if (readAllFilesRecursively outTree).isEmpty then
          ⟨⟨500, false, some "No artifacts produced", [], none⟩, true, false,
            some (decodeIf code), some (safeName (some fn))⟩
        else
          ⟨⟨200, true, none, readAllFilesRecursively outTree, none⟩, true, false,
            some (decodeIf code), some (safeName (some fn))⟩
      | .rejectedExit c err =>
        ⟨⟨500, false, some (exitMsg c err), [], some err⟩, true, false,
          some (decodeIf code), some (safeName (some fn))⟩
      | .rejectedTimeout err =>
        ⟨⟨500, false, some (timeoutMsg tms err), [], none⟩, true, false,
          some (decodeIf code), some (safeName (some fn))⟩
      | .rejectedSpawn m =>
        ⟨⟨500, false, some m, [], none⟩, true, false,
          some (decodeIf code), some (safeName (some fn))⟩

end ServerJs

/-- Message of the Part000 no-artifacts failure. -/
def noArtifactsMsg : String := "No .arc32.json or .arc56.json files produced"

namespace Part000

/-- Model of the Part000 compile handler (src/unnamed/part_000 lines
128-216).  It accepts only a structured body (no raw-body recovery), writes
the code verbatim (no double-escape normalization), filters the collected
artifacts to the arc32/arc56 suffixes, and attempts removal of the sandbox
on every path on which mkdtempSync succeeded; a removal failure is swallowed
and never alters the response. -/
def compileHandler (body : Option BodyC) (mkOk writeOk : Bool)
    (outTree : Option FSNode) (rmFails : Bool) (tms : Nat)
    (proc : ProcBehavior) : C000Out :=
  match body with
  | none => ⟨⟨400, false, some invalidBodyMsg, []⟩, false, false, false, none, none⟩
  | some b =>
    match b.code with
    | none => ⟨⟨400, false, some invalidBodyMsg, []⟩, false, false, false, none, none⟩
    | some code =>
      if isBlank code then
        ⟨⟨400, false, some emptyCodeMsg, []⟩, false, false, false, none, none⟩
      else if mkOk = false then
        ⟨⟨500, false, some envErrMsg, []⟩, false, false, false, none, none⟩
      else if writeOk = false then
        ⟨⟨500, false, some envErrMsg, []⟩, true, true, rmFails, none, none⟩
      else
        match (runCommand proc).1 with
        | .resolved _ _ =>
          if (artifactFilter (readAllFilesRecursively outTree)).isEmpty then
            ⟨⟨500, false, some noArtifactsMsg, []⟩, true, true, rmFails,
              some code, some (safeName b.filename)⟩
          else
            ⟨⟨200, true, none, artifactFilter (readAllFilesRecursively outTree)⟩,
              true, true, rmFails, some code, some (safeName b.filename)⟩
        | .rejectedExit c err =>
          ⟨⟨500, false, some (exitMsg c err), []⟩, true, true, rmFails,
            some code, some (safeName b.filename)⟩
        | .rejectedTimeout err =>
          ⟨⟨500, false, some (timeoutMsg tms err), []⟩, true, true, rmFails,
            some code, some (safeName b.filename)⟩
        | .rejectedSpawn m =>
          ⟨⟨500, false, some m, []⟩, true, true, rmFails,
            some code, some (safeName b.filename)⟩

end Part000

/-- Message of the invalid generate-client body. -/
def invalidGCMsg : String :=
  "Invalid request body. Expected JSON with \x7b arc32Json \x7d."

/-- Content written to contract.arc32.json (Part000 line 235): a string
value is written as is, any other value is serialized with two-space
indentation. -/
def arcContent : Json → String
  | .str s => s
  | v => stringify2 v

namespace Part000

/-- Model of the Part000 generate-client handler (src/unnamed/part_000
lines 218-280).  The body is a structured object whose arc32Json field is
modelled as an optional Json value (outer none: body absent or not an
object; inner none: field absent).  Validation happens before the sandbox
is created and before any process is spawned; clientFile is the content of
client.ts when it exists after a successful run. -/
def generateClientHandler (body : Option (Option Json)) (mkOk writeOk : Bool)
    (clientFile : Option String) (rmFails : Bool) (tms : Nat)
    (proc : ProcBehavior) : GCOut :=
  match body with
  | none => ⟨⟨400, false, some invalidGCMsg, []⟩, false, false, false, false, none⟩
  | some arcField =>
    match arcField with
    | none => ⟨⟨400, false, some invalidGCMsg, []⟩, false, false, false, false, none⟩
    | some v =>
      if jsTruthyB v = false then
        ⟨⟨400, false, some invalidGCMsg, []⟩, false, false, false, false, none⟩
      else if mkOk = false then
        ⟨⟨500, false, some envErrMsg, []⟩, false, false, false, false, none⟩
      else if writeOk = false then
        ⟨⟨500, false, some envErrMsg, []⟩, true, false, true, rmFails, none⟩
      else
        match (runCommand proc).1 with
        | .resolved _ _ =>
          match clientFile with
          | none =>
            ⟨⟨500, false, some "client.ts file was not generated", []⟩,
              true, true, true, rmFails, some (arcContent v)⟩
          | some content =>
            ⟨⟨200, true, none, [("client.ts", ⟨"utf8", content⟩)]⟩,
              true, true, true, rmFails, some (arcContent v)⟩
        | .rejectedExit c err =>
          ⟨⟨500, false, some (exitMsg c err), []⟩, true, true, true, rmFails,
            some (arcContent v)⟩
        | .rejectedTimeout err =>
          ⟨⟨500, false, some (timeoutMsg tms err), []⟩, true, true, true, rmFails,
            some (arcContent v)⟩
        | .rejectedSpawn m =>
          ⟨⟨500, false, some m, []⟩, true, true, true, rmFails,
            some (arcContent v)⟩

end Part000

/-- Concrete oracle instance on which every platform parse and regex
search fails, used to instantiate universally quantified statements. -/
def O0 : Oracles := ⟨fun _ => none, fun _ => none, fun _ => none, fun _ => none⟩

theorem hasPrefixC_refl : ∀ l : List Char, hasPrefixC l l = true := by
  intro l
  induction l with
  | nil => rfl
  | cons c cs ih => simp [hasPrefixC, ih]

theorem hasSubC_self : ∀ b : List Char, hasSubC b b = true := by
  intro b
  cases b with
  | nil => rfl
  | cons c cs => simp [hasSubC, hasPrefixC_refl]

theorem hasSubC_append_right : ∀ a b : List Char, hasSubC (a ++ b) b = true := by
  intro a b
  induction a with
  | nil => simpa using hasSubC_self b
  | cons c cs ih => simp [hasSubC, ih]

theorem hasSubstr_append (s t : String) : hasSubstr (s ++ t) t = true := by
  unfold hasSubstr
  rw [String.data_append]
  exact hasSubC_append_right _ _

theorem replaceAllFuel_id_of_no_backslash :
    ∀ (f : Nat) (l : List Char) (rest rep : List Char),
      (∀ c ∈ l, c ≠ '\\') →
      replaceAllFuel f l ('\\' :: rest) rep = l := by
  intro f
  induction f with
  | zero => intro l rest rep _; rfl
  | succ f ih =>
    intro l rest rep h
    cases l with
    | nil => rfl
    | cons c cs =>
      have hc : c ≠ '\\' := h c (by simp)
      have hcs : ∀ x ∈ cs, x ≠ '\\' := fun x hx => h x (by simp [hx])
      have hpre : hasPrefixC (c :: cs) ('\\' :: rest) = false := by
        simp [hasPrefixC, hc]
      simp [replaceAllFuel, hpre, ih cs rest rep hcs]

theorem decodeEscapes_id_of_no_backslash :
    ∀ s : String, (∀ c ∈ s.data, c ≠ '\\') → decodeEscapes s = s := by
  intro s h
  unfold decodeEscapes replaceAllC
  rw [replaceAllFuel_id_of_no_backslash _ _ _ _ h]
  rw [replaceAllFuel_id_of_no_backslash _ _ _ _ h]
  rw [replaceAllFuel_id_of_no_backslash _ _ _ _ h]
  rw [replaceAllFuel_id_of_no_backslash _ _ _ _ h]

theorem lastComponent_no_slash (l : List Char) : ∀ c ∈ lastComponent l, c ≠ '/' := by
  intro c hc
  unfold lastComponent at hc
  rw [List.mem_reverse] at hc
  have := List.mem_takeWhile_imp hc
  simpa using this

theorem nodeBasename_no_slash (s : String) : ∀ c ∈ (nodeBasename s).data, c ≠ '/' := by
  intro c hc
  exact lastComponent_no_slash _ c hc

theorem safeName_no_slash (fn : Option String) : ∀ c ∈ (safeName fn).data, c ≠ '/' := by
  intro c hc
  unfold safeName at hc
  split at hc
  · have hall : ∀ x ∈ ("contract.algo.ts" : String).data, x ≠ '/' := by decide
    exact hall c hc
  · exact nodeBasename_no_slash _ c hc

theorem safeName_ne_empty (fn : Option String) : safeName fn ≠ "" := by
  unfold safeName
  split
  · decide
  · next h => exact h

theorem splitOnSlash_no_slash : ∀ l : List Char, (∀ c ∈ l, c ≠ '/') → splitOnSlash l = [l] := by
  intro l
  induction l with
  | nil => intro _; rfl
  | cons c cs ih =>
    intro h
    have hcs : splitOnSlash cs = [cs] := ih (fun x hx => h x (by simp [hx]))
    have hc : c ≠ '/' := h c (by simp)
    simp [splitOnSlash, hcs, hc]

theorem resolveJoin_single (base : List String) (s : String)
    (hne : s ≠ "") (hd : s ≠ ".") (hdd : s ≠ "..") (hs : ∀ c ∈ s.data, c ≠ '/') :
    resolveJoin base s = base ++ [s] := by
  unfold resolveJoin
  rw [splitOnSlash_no_slash s.data hs]
  simp only [List.map_cons, List.map_nil, List.foldl_cons, List.foldl_nil]
  have hmk : String.mk s.data = s := rfl
  rw [hmk]
  unfold applySeg
  simp [hne, hd, hdd]

theorem isPrefixL_append : ∀ (l t : List String), isPrefixL l (l ++ t) = true := by
  intro l t
  induction l with
  | nil => rfl
  | cons a as ih => simp [isPrefixL, ih]

theorem isInsideB_append_single (base : List String) (s : String) :
    isInsideB base (base ++ [s]) = true := by
  unfold isInsideB
  simp [isPrefixL_append]

theorem walkNodes_eq_flatten (n : FSNode) :
    ∀ base, walkNodes base n = (flattenNodes base n).map encodePair := by
  induction n with
  | nilNode => intro base; rfl
  | fileNode name c next ih =>
    intro base
    simp [walkNodes, flattenNodes, encodePair, ih]
  | dirNode name children next ih1 ih2 =>
    intro base
    simp [walkNodes, flattenNodes, ih1, ih2]

/-- Claim C3: when the subprocess has not exited as the timeout elapses,
both runCommand variants kill it with the non-catchable SIGKILL signal and
settle the promise with the TimedOut rejection carrying exactly the stderr
captured up to that point (the rejection message embeds that stderr).  The
model is untimed: the timeout branch of ProcBehavior is by construction the
only way a run can outlast the clock, so the caller always receives this
outcome rather than blocking. -/
theorem spec_c3_thm : ∀ (err : String) (tms : Nat),
    ServerJs.runCommand (.hangs err) = (.rejectedTimeout err, some "SIGKILL")
    ∧ Part000.runCommand (.hangs err) = (.rejectedTimeout err, some "SIGKILL")
    ∧ hasSubstr (timeoutMsg tms err) err = true := by
  intro err tms
  exact ⟨rfl, rfl, hasSubstr_append _ _⟩

/-- Claim C7: collecting a non-existent root yields the empty artifact set
rather than an error, and collecting an existing tree maps every regular
file, at its relative path, to its utf8 text when the utf8 read succeeded
and to its base64-encoded raw bytes with the binary marker otherwise. -/
theorem spec_c7_thm :
    readAllFilesRecursively none = []
    ∧ ∀ root : FSNode,
        readAllFilesRecursively (some root) = (flattenNodes "" root).map encodePair := by
  exact ⟨rfl, fun root => walkNodes_eq_flatten root ""⟩

/-- Claim C8 counterexample: the filename consisting of a single dot-dot
segment is its own final path component, so the sanitized name is dot-dot
and the path it resolves to is the parent of the working directory, not a
location inside it — refuting the clause that the written path always lies
inside the working directory of the job. -/
theorem spec_c8_cex :
    safeName (some "..") = ".."
    ∧ isInsideB ["tmp", "puya-1"] (resolveJoin ["tmp", "puya-1"] (safeName (some ".."))) = false := by
  decide

/-- Claim C8 (amended): the source file is always written under the final
path component of the supplied filename, with the fixed default
substituted when the filename is absent, empty or sanitizes to the empty
string; whenever that final component is neither the dot nor the dot-dot
segment, the written path resolves to a location strictly inside the
working directory (in particular a traversal filename such as
../../etc/passwd sanitizes to passwd and stays inside). -/
theorem spec_c8_thm :
    ∀ (fn : Option String) (base : List String),
      safeName fn ≠ "." → safeName fn ≠ ".." →
      resolveJoin base (safeName fn) = base ++ [safeName fn]
      ∧ isInsideB base (resolveJoin base (safeName fn)) = true := by
  intro fn base hd hdd
  have h1 : resolveJoin base (safeName fn) = base ++ [safeName fn] :=
    resolveJoin_single base (safeName fn) (safeName_ne_empty fn) hd hdd (safeName_no_slash fn)
  refine ⟨h1, ?_⟩
  rw [h1]
  exact isInsideB_append_single base (safeName fn)

/-- Claim C8 witness: instantiation at the traversal filename from the
claim. -/
theorem spec_c8_witness :
    resolveJoin ["tmp", "puya-1"] (safeName (some "../../etc/passwd")) =
      ["tmp", "puya-1"] ++ [safeName (some "../../etc/passwd")]
    ∧ isInsideB ["tmp", "puya-1"]
        (resolveJoin ["tmp", "puya-1"] (safeName (some "../../etc/passwd"))) = true :=
  spec_c8_thm (some "../../etc/passwd") ["tmp", "puya-1"] (by decide) (by decide)

/-- Claim C2 counterexample: in the Part000 variant a subprocess that exits
before the timeout with code 1 but whose captured stderr contains the text
SuppressedError is resolved as the Success outcome, not the NonZeroExit
rejection. -/
theorem spec_c2_cex :
    (Part000.runCommand (.exits 1 "" "SuppressedError: x")).1 =
      .resolved "" "SuppressedError: x" := by
  decide

/-- Claim C2 (amended): a subprocess exiting before the timeout with a
non-zero code always yields the NonZeroExit rejection carrying the exit
code and the captured stderr in the ServerJs variant, and in the Part000
variant whenever the captured stderr does not contain the text
SuppressedError (otherwise Part000 resolves it as Success); in both
orchestrators the rejection is reported as a 500 response with ok false
whose error message embeds the exit code and the captured stderr (ServerJs
additionally echoes the stderr property). -/
theorem spec_c2_thm :
    (∀ (c : Int) (out err : String), c ≠ 0 →
      (ServerJs.runCommand (.exits c out err)).1 = .rejectedExit c err)
    ∧ (∀ (c : Int) (out err : String), c ≠ 0 → hasSubstr err "SuppressedError" = false →
      (Part000.runCommand (.exits c out err)).1 = .rejectedExit c err)
    ∧ (∀ (fnOpt : Option String) (code : String) (raw : Option String) (O : Oracles)
        (t : Option FSNode) (tms : Nat) (c : Int) (out err : String),
        isBlank code = false → c ≠ 0 →
      (ServerJs.compileHandler (some ⟨fnOpt, some code⟩) raw O true true t tms
        (.exits c out err)).resp = ⟨500, false, some (exitMsg c err), [], some err⟩)
    ∧ (∀ (fnOpt : Option String) (code : String) (t : Option FSNode) (rm : Bool) (tms : Nat)
        (c : Int) (out err : String),
        isBlank code = false → c ≠ 0 → hasSubstr err "SuppressedError" = false →
      (Part000.compileHandler (some ⟨fnOpt, some code⟩) true true t rm tms
        (.exits c out err)).resp = ⟨500, false, some (exitMsg c err), []⟩)
    ∧ (∀ (c : Int) (err : String), hasSubstr (exitMsg c err) err = true) := by
  refine ⟨?_, ?_, ?_, ?_, ?_⟩
  · intro c out err hc
    simp [ServerJs.runCommand, hc]
  · intro c out err hc hs
    simp [Part000.runCommand, hc, hs]
  · intro fnOpt code raw O t tms c out err hb hc
    simp [ServerJs.compileHandler, recoverPayloadSrv, hb, ServerJs.runCommand, hc]
  · intro fnOpt code t rm tms c out err hb hc hs
    simp [Part000.compileHandler, hb, Part000.runCommand, hc, hs]
  · intro c err
    exact hasSubstr_append _ _

/-- Claim C2 witness: instantiation at exit code 1 with stderr boom. -/
theorem spec_c2_witness :
    (ServerJs.runCommand (.exits 1 "out" "boom")).1 = .rejectedExit 1 "boom"
    ∧ (Part000.runCommand (.exits 1 "out" "boom")).1 = .rejectedExit 1 "boom"
    ∧ (ServerJs.compileHandler (some ⟨none, some "x"⟩) none O0 true true none 20000
        (.exits 1 "out" "boom")).resp = ⟨500, false, some (exitMsg 1 "boom"), [], some "boom"⟩
    ∧ (Part000.compileHandler (some ⟨none, some "x"⟩) true true none false 20000
        (.exits 1 "out" "boom")).resp = ⟨500, false, some (exitMsg 1 "boom"), []⟩
    ∧ hasSubstr (exitMsg 1 "boom") "boom" = true :=
  ⟨spec_c2_thm.1 1 "out" "boom" (by decide),
   spec_c2_thm.2.1 1 "out" "boom" (by decide) (by decide),
   spec_c2_thm.2.2.1 none "x" none O0 none 20000 1 "out" "boom" (by decide) (by decide),
   spec_c2_thm.2.2.2.1 none "x" none false 20000 1 "out" "boom" (by decide) (by decide) (by decide),
   spec_c2_thm.2.2.2.2 1 "boom"⟩

/-- Claim C1 counterexample: the ServerJs compile handler reaches a
successful terminal response with the sandbox created and yet never
attempts its removal — no path of that handler removes the temporary
directory. -/
theorem spec_c1_cex :
    (ServerJs.compileHandler (some ⟨none, some "x"⟩) none O0 true true
      (some (FSNode.fileNode "a.arc32.json" ⟨some "d", ""⟩ FSNode.nilNode)) 20000
      (.exits 0 "" "")).created = true
    ∧ (ServerJs.compileHandler (some ⟨none, some "x"⟩) none O0 true true
      (some (FSNode.fileNode "a.arc32.json" ⟨some "d", ""⟩ FSNode.nilNode)) 20000
      (.exits 0 "" "")).rmAttempted = false := by
  decide

/-- Claim C1 (amended): in the Part000 variant, for both the compile and
the generate-client handler, removal of the sandbox directory is attempted
before the response on every terminal path on which the directory was
created (success, empty-artifact failure, compilation failure, or any
thrown fault), and a failure of the removal itself never alters the
response; the earlier ServerJs variant never attempts removal at all. -/
theorem spec_c1_thm :
    ∀ (body : Option BodyC) (gb : Option (Option Json)) (mk w : Bool) (t : Option FSNode)
      (cf : Option String) (rm : Bool) (tms : Nat) (proc : ProcBehavior),
      ((Part000.compileHandler body mk w t rm tms proc).created = true →
        (Part000.compileHandler body mk w t rm tms proc).rmAttempted = true)
      ∧ (Part000.compileHandler body mk w t rm tms proc).resp =
          (Part000.compileHandler body mk w t false tms proc).resp
      ∧ ((Part000.generateClientHandler gb mk w cf rm tms proc).created = true →
        (Part000.generateClientHandler gb mk w cf rm tms proc).rmAttempted = true)
      ∧ (Part000.generateClientHandler gb mk w cf rm tms proc).resp =
          (Part000.generateClientHandler gb mk w cf false tms proc).resp := by
  intro body gb mk w t cf rm tms proc
  refine ⟨?_, ?_, ?_, ?_⟩
  · unfold Part000.compileHandler
    split
    · intro h; exact absurd h (by simp)
    · split
      · intro h; exact absurd h (by simp)
      · split
        · intro h; exact absurd h (by simp)
        · split
          · intro h; exact absurd h (by simp)
          · split
            · intro _; rfl
            · split
              · split
                · intro _; rfl
                · intro _; rfl
              · intro _; rfl
              · intro _; rfl
              · intro _; rfl
  · unfold Part000.compileHandler
    split
    · rfl
    · split
      · rfl
      · split
        · rfl
        · split
          · rfl
          · split
            · rfl
            · split
              · split
                · rfl
                · rfl
              · rfl
              · rfl
              · rfl
  · unfold Part000.generateClientHandler
    split
    · intro h; exact absurd h (by simp)
    · split
      · intro h; exact absurd h (by simp)
      · split
        · intro h; exact absurd h (by simp)
        · split
          · intro h; exact absurd h (by simp)
          · split
            · intro _; rfl
            · split
              · split
                · intro _; rfl
                · intro _; rfl
              · intro _; rfl
              · intro _; rfl
              · intro _; rfl
  · unfold Part000.generateClientHandler
    split
    · rfl
    · split
      · rfl
      · split
        · rfl
        · split
          · rfl
          · split
            · rfl
            · split
              · split
                · rfl
                · rfl
              · rfl
              · rfl
              · rfl

/-- Claim C1 witness: a Part000 compile request whose sandbox was created
has its removal attempted. -/
theorem spec_c1_witness :
    (Part000.compileHandler (some ⟨none, some "x"⟩) true true none false 20000
      (.exits 0 "" "")).rmAttempted = true :=
  (spec_c1_thm (some ⟨none, some "x"⟩) none true true none none false 20000
    (.exits 0 "" "")).1 (by decide)

/-- Claim C6: on a Part000 compile run whose subprocess outcome is Success
(exit code 0), the files mapping of the response equals the collected
artifact set restricted to names ending in .arc32.json or .arc56.json,
and when that restriction is empty the response is instead the
no-artifacts failure with ok false and status 500. -/
theorem spec_c6_thm :
    ∀ (fnOpt : Option String) (code : String) (t : Option FSNode) (rm : Bool) (tms : Nat)
      (out err : String),
      isBlank code = false →
      ((artifactFilter (readAllFilesRecursively t) = [] →
        (Part000.compileHandler (some ⟨fnOpt, some code⟩) true true t rm tms
          (.exits 0 out err)).resp = ⟨500, false, some noArtifactsMsg, []⟩)
      ∧ (artifactFilter (readAllFilesRecursively t) ≠ [] →
        (Part000.compileHandler (some ⟨fnOpt, some code⟩) true true t rm tms
          (.exits 0 out err)).resp =
          ⟨200, true, none, artifactFilter (readAllFilesRecursively t)⟩)) := by
  intro fnOpt code t rm tms out err hb
  constructor
  · intro he
    simp [Part000.compileHandler, hb, Part000.runCommand, he]
  · intro hne
    simp [Part000.compileHandler, hb, Part000.runCommand, hne]

/-- Claim C6 witness: an output tree with one arc32 artifact and one other
file yields exactly the filtered mapping. -/
theorem spec_c6_witness :
    (Part000.compileHandler (some ⟨none, some "x"⟩) true true
      (some (FSNode.fileNode "a.arc32.json" ⟨some "d", ""⟩
        (FSNode.fileNode "b.teal" ⟨some "tl", ""⟩ FSNode.nilNode))) false 20000
      (.exits 0 "" "")).resp =
      ⟨200, true, none,
        artifactFilter (readAllFilesRecursively
          (some (FSNode.fileNode "a.arc32.json" ⟨some "d", ""⟩
            (FSNode.fileNode "b.teal" ⟨some "tl", ""⟩ FSNode.nilNode))))⟩ :=
  (spec_c6_thm none "x"
    (some (FSNode.fileNode "a.arc32.json" ⟨some "d", ""⟩
      (FSNode.fileNode "b.teal" ⟨some "tl", ""⟩ FSNode.nilNode))) false 20000 "" ""
    (by decide)).2 (by decide)

/-- Claim C4 counterexample: for a structured body whose code field is the
four characters x backslash n y, the source text written by the ServerJs
handler has the literal backslash-n decoded to a real newline, so it is not
character-for-character the code field of the input. -/
theorem spec_c4_cex :
    (ServerJs.compileHandler (some ⟨none, some "x\\ny"⟩) none O0 true true none 20000
      (.exits 0 "" "")).written ≠ some "x\\ny"
    ∧ (ServerJs.compileHandler (some ⟨none, some "x\\ny"⟩) none O0 true true none 20000
      (.exits 0 "" "")).written = some "x\ny" := by
  decide

/-- Claim C4 (amended): for a structured body with a string code field and
a non-empty filename, payload recovery returns exactly that filename/code
pair unchanged; the source text written to the sandbox is
character-for-character the code field in the Part000 variant, and in the
ServerJs variant whenever the code contains none of the literal escape
sequences backslash-n, backslash-r backslash-n, backslash-t,
backslash-quote (otherwise ServerJs decodes those once before writing). -/
theorem spec_c4_thm :
    (∀ (fn code : String) (raw : Option String) (O : Oracles), fn ≠ "" →
      recoverPayloadSrv (some ⟨some fn, some code⟩) raw O = .ok fn code)
    ∧ (∀ (fnOpt : Option String) (code : String) (t : Option FSNode) (rm : Bool) (tms : Nat)
        (proc : ProcBehavior), isBlank code = false →
      (Part000.compileHandler (some ⟨fnOpt, some code⟩) true true t rm tms proc).written =
        some code)
    ∧ (∀ (fnOpt : Option String) (code : String) (raw : Option String) (O : Oracles)
        (t : Option FSNode) (tms : Nat) (proc : ProcBehavior),
        isBlank code = false → needsDecode code = false →
      (ServerJs.compileHandler (some ⟨fnOpt, some code⟩) raw O true true t tms proc).written =
        some code) := by
  refine ⟨?_, ?_, ?_⟩
  · intro fn code raw O hfn
    simp [recoverPayloadSrv, orDefaultName, hfn]
  · intro fnOpt code t rm tms proc hb
    cases hp : (Part000.runCommand proc).1 <;>
      simp [Part000.compileHandler, hb, hp] <;>
      split <;> simp
  · intro fnOpt code raw O t tms proc hb hd
    cases hp : (ServerJs.runCommand proc).1 <;>
      simp [ServerJs.compileHandler, recoverPayloadSrv, hb, hp, decodeIf, hd] <;>
      split <;> simp

/-- Claim C4 witness: instantiation at a clean filename/code pair. -/
theorem spec_c4_witness :
    recoverPayloadSrv (some ⟨some "A.ts", some "let a = 1"⟩) none O0 = .ok "A.ts" "let a = 1"
    ∧ (Part000.compileHandler (some ⟨some "A.ts", some "let a = 1"⟩) true true none false 20000
        (.exits 0 "" "")).written = some "let a = 1"
    ∧ (ServerJs.compileHandler (some ⟨some "A.ts", some "let a = 1"⟩) none O0 true true none
        20000 (.exits 0 "" "")).written = some "let a = 1" :=
  ⟨spec_c4_thm.1 "A.ts" "let a = 1" none O0 (by decide),
   spec_c4_thm.2.1 (some "A.ts") "let a = 1" none false 20000 (.exits 0 "" "") (by decide),
   spec_c4_thm.2.2 (some "A.ts") "let a = 1" none O0 none 20000 (.exits 0 "" "")
     (by decide) (by decide)⟩

/-- Claim C9 counterexample: on the three-character text
backslash-backslash-quote, decoding replaces the second backslash and the
quote by a quote, leaving backslash-quote, and decoding that once more
yields a lone quote — so applying the decoding twice differs from applying
it once. -/
theorem spec_c9_cex :
    decodeEscapes (decodeEscapes "\\\\\"") ≠ decodeEscapes "\\\\\"" := by
  decide

/-- Claim C9 (amended): in the ServerJs variant, recovered source text that
still contains one of the literal escape sequences backslash-n,
backslash-r backslash-n, backslash-t, backslash-quote has them decoded once
into real newlines, tabs and quotes before the source is written; this
decoding is idempotent on every text whose decoded form contains no
backslash, but not in general; the Part000 variant writes the code field
verbatim without this decoding. -/
theorem spec_c9_thm :
    (∀ (fnOpt : Option String) (code : String) (raw : Option String) (O : Oracles)
        (t : Option FSNode) (tms : Nat) (proc : ProcBehavior),
        isBlank code = false → needsDecode code = true →
      (ServerJs.compileHandler (some ⟨fnOpt, some code⟩) raw O true true t tms proc).written =
        some (decodeEscapes code))
    ∧ (∀ s : String, (∀ c ∈ (decodeEscapes s).data, c ≠ '\\') →
        decodeEscapes (decodeEscapes s) = decodeEscapes s)
    ∧ (∀ (fnOpt : Option String) (code : String) (t : Option FSNode) (rm : Bool) (tms : Nat)
        (proc : ProcBehavior), isBlank code = false →
      (Part000.compileHandler (some ⟨fnOpt, some code⟩) true true t rm tms proc).written =
        some code) := by
  refine ⟨?_, ?_, ?_⟩
  · intro fnOpt code raw O t tms proc hb hd
    cases hp : (ServerJs.runCommand proc).1 <;>
      simp [ServerJs.compileHandler, recoverPayloadSrv, hb, hp, decodeIf, hd] <;>
      split <;> simp
  · intro s h
    exact decodeEscapes_id_of_no_backslash (decodeEscapes s) h
  · intro fnOpt code t rm tms proc hb
    cases hp : (Part000.runCommand proc).1 <;>
      simp [Part000.compileHandler, hb, hp] <;>
      split <;> simp

/-- Claim C9 witness: a doubly escaped newline is decoded before writing,
decoding is idempotent on a backslash-free text, and Part000 writes
verbatim. -/
theorem spec_c9_witness :
    (ServerJs.compileHandler (some ⟨none, some "a\\nb"⟩) none O0 true true none 20000
      (.exits 0 "" "")).written = some (decodeEscapes "a\\nb")
    ∧ decodeEscapes (decodeEscapes "plain") = decodeEscapes "plain"
    ∧ (Part000.compileHandler (some ⟨none, some "a\\nb"⟩) true true none false 20000
      (.exits 0 "" "")).written = some "a\\nb" :=
  ⟨spec_c9_thm.1 none "a\\nb" none O0 none 20000 (.exits 0 "" "") (by decide) (by decide),
   spec_c9_thm.2.1 "plain" (by decide),
   spec_c9_thm.2.2 none "a\\nb" none false 20000 (.exits 0 "" "") (by decide)⟩

/-- Claim C10: a generate-client request whose body lacks a truthy
arc32Json field (absent body, absent field, or any falsy field value such
as the empty string) is answered with status 400 and ok false before any
temporary directory is created and before any process is spawned; and when
arc32Json is a truthy non-string value, the file written to the sandbox is
its JSON serialization with two-space indentation. -/
theorem spec_c10_thm :
    (∀ (mk w : Bool) (cf : Option String) (rm : Bool) (tms : Nat) (proc : ProcBehavior),
      (Part000.generateClientHandler none mk w cf rm tms proc).resp.status = 400
      ∧ (Part000.generateClientHandler none mk w cf rm tms proc).resp.ok = false
      ∧ (Part000.generateClientHandler none mk w cf rm tms proc).created = false
      ∧ (Part000.generateClientHandler none mk w cf rm tms proc).spawned = false)
    ∧ (∀ (mk w : Bool) (cf : Option String) (rm : Bool) (tms : Nat) (proc : ProcBehavior),
      (Part000.generateClientHandler (some none) mk w cf rm tms proc).resp.status = 400
      ∧ (Part000.generateClientHandler (some none) mk w cf rm tms proc).resp.ok = false
      ∧ (Part000.generateClientHandler (some none) mk w cf rm tms proc).created = false
      ∧ (Part000.generateClientHandler (some none) mk w cf rm tms proc).spawned = false)
    ∧ (∀ (v : Json) (mk w : Bool) (cf : Option String) (rm : Bool) (tms : Nat)
        (proc : ProcBehavior), jsTruthyB v = false →
      (Part000.generateClientHandler (some (some v)) mk w cf rm tms proc).resp.status = 400
      ∧ (Part000.generateClientHandler (some (some v)) mk w cf rm tms proc).resp.ok = false
      ∧ (Part000.generateClientHandler (some (some v)) mk w cf rm tms proc).created = false
      ∧ (Part000.generateClientHandler (some (some v)) mk w cf rm tms proc).spawned = false)
    ∧ (∀ (v : Json) (cf : Option String) (rm : Bool) (tms : Nat) (proc : ProcBehavior),
        jsTruthyB v = true → isStrJson v = false →
      (Part000.generateClientHandler (some (some v)) true true cf rm tms proc).writtenArc32 =
        some (stringify2 v)) := by
  refine ⟨?_, ?_, ?_, ?_⟩
  · intro mk w cf rm tms proc
    exact ⟨rfl, rfl, rfl, rfl⟩
  · intro mk w cf rm tms proc
    exact ⟨rfl, rfl, rfl, rfl⟩
  · intro v mk w cf rm tms proc hv
    refine ⟨?_, ?_, ?_, ?_⟩ <;> simp [Part000.generateClientHandler, hv]
  · intro v cf rm tms proc hv hs
    have harc : arcContent v = stringify2 v := by
      cases v <;> simp_all [arcContent, isStrJson]
    cases hp : (Part000.runCommand proc).1 <;>
      simp [Part000.generateClientHandler, hv, hp, harc] <;>
      split <;> simp

/-- Claim C10 witness: an empty-string arc32Json field is rejected with
status 400 before sandbox creation, and an object field is written as its
two-space-indented serialization. -/
theorem spec_c10_witness :
    (Part000.generateClientHandler (some (some (Json.str ""))) true true none false 20000
      (.exits 0 "" "")).resp.status = 400
    ∧ (Part000.generateClientHandler (some (some (Json.str ""))) true true none false 20000
      (.exits 0 "" "")).created = false
    ∧ (Part000.generateClientHandler
        (some (some (Json.obj (.cons "a" (Json.num 1) .nil)))) true true none false 20000
        (.exits 0 "" "")).writtenArc32 =
      some (stringify2 (Json.obj (.cons "a" (Json.num 1) .nil))) :=
  ⟨(spec_c10_thm.2.2.1 (Json.str "") true true none false 20000 (.exits 0 "" "")
      (by decide)).1,
   (spec_c10_thm.2.2.1 (Json.str "") true true none false 20000 (.exits 0 "" "")
      (by decide)).2.2.1,
   spec_c10_thm.2.2.2 (Json.obj (.cons "a" (Json.num 1) .nil)) none false 20000
     (.exits 0 "" "") (by decide) (by decide)⟩

theorem recoverFromRaw_eq (O : Oracles) (raw : Option String) :
    recoverProj (recoverFromRaw O raw) = firstSome [strat2 O raw, strat3 O raw, strat4 raw]
    ∧ (firstSome [strat2 O raw, strat3 O raw, strat4 raw] = none →
        ∃ e, recoverFromRaw O raw = .malformed 400 e) := by
  cases raw with
  | none =>
    exact ⟨rfl, fun _ => ⟨invalidBodyMsg, rfl⟩⟩
  | some r =>
    by_cases hr : r = ""
    · subst hr
      constructor
      · simp [recoverFromRaw, strat2, strat3, strat4, truthyRaw, firstSome, recoverProj]
      · intro _
        exact ⟨invalidBodyMsg, by simp [recoverFromRaw]⟩
    · have htr : truthyRaw (some r) = some r := by simp [truthyRaw, hr]
      cases hp : parseAttempt O (braceTrim r) with
      | some fc =>
        constructor
        · simp [recoverFromRaw, hr, tryRecoverCodeFromString, hp, strat2, htr, firstSome,
            recoverProj]
        · intro hnone
          exfalso
          simp [strat2, htr, hp, firstSome] at hnone
      | none =>
        cases hq : regexAttempt O (braceTrim r) with
        | some fc =>
          constructor
          · simp [recoverFromRaw, hr, tryRecoverCodeFromString, hp, hq, strat2, strat3, htr,
              firstSome, recoverProj]
          · intro hnone
            exfalso
            simp [strat2, strat3, htr, hp, hq, firstSome] at hnone
        | none =>
          by_cases hc : countBraceQuote r < 5
          · constructor
            · simp [recoverFromRaw, hr, tryRecoverCodeFromString, hp, hq, strat2, strat3,
                strat4, htr, hc, firstSome, recoverProj]
            · intro hnone
              exfalso
              simp [strat2, strat3, strat4, htr, hp, hq, hc, firstSome] at hnone
          · constructor
            · simp [recoverFromRaw, hr, tryRecoverCodeFromString, hp, hq, strat2, strat3,
                strat4, htr, hc, firstSome, recoverProj]
            · intro _
              exact ⟨unableMsg, by
                simp [recoverFromRaw, hr, tryRecoverCodeFromString, hp, hq, hc]⟩

/-- Claim C5: payload recovery of the ServerJs compile handler applies its
strategies in a fixed order with the first success winning — (1) the
structured body with a string code field, (2) strict parse of the body
trimmed to its first opening brace accepting a string code field, (3)
tolerant regex extraction of the quoted code with escape decoding plus
independent optional filename extraction, (4) the entire raw body taken
verbatim when it has fewer than five quote or brace characters — and when
every strategy fails the request is answered as a malformed-request client
error with status 400. -/
theorem spec_c5_thm :
    ∀ (O : Oracles) (body : Option BodyC) (raw : Option String),
      recoverProj (recoverPayloadSrv body raw O) =
        firstSome [strat1 body, strat2 O raw, strat3 O raw, strat4 raw]
      ∧ (firstSome [strat1 body, strat2 O raw, strat3 O raw, strat4 raw] = none →
          ∃ e, recoverPayloadSrv body raw O = .malformed 400 e) := by
  intro O body raw
  obtain ⟨hA, hB⟩ := recoverFromRaw_eq O raw
  cases body with
  | none =>
    constructor
    · simpa [recoverPayloadSrv, strat1, firstSome] using hA
    · intro h
      exact hB (by simpa [strat1, firstSome] using h)
  | some b =>
    obtain ⟨bf, bc⟩ := b
    cases bc with
    | some c =>
      constructor
      · simp [recoverPayloadSrv, strat1, firstSome, recoverProj]
      · intro h
        exfalso
        simp [strat1, firstSome] at h
    | none =>
      constructor
      · simpa [recoverPayloadSrv, strat1, firstSome] using hA
      · intro h
        exact hB (by simpa [strat1, firstSome] using h)

/-- Claim C5 witness: at a raw body with five structural quote characters
that no strategy recovers, the orders agree and the handler answers with a
400 malformed-request error. -/
theorem spec_c5_witness :
    recoverProj (recoverPayloadSrv none (some "\"\"\"\"\"") O0) =
      firstSome [strat1 none, strat2 O0 (some "\"\"\"\"\""), strat3 O0 (some "\"\"\"\"\""),
        strat4 (some "\"\"\"\"\"")]
    ∧ (∃ e, recoverPayloadSrv none (some "\"\"\"\"\"") O0 = .malformed 400 e) :=
  ⟨(spec_c5_thm O0 none (some "\"\"\"\"\"")).1,
   (spec_c5_thm O0 none (some "\"\"\"\"\"")).2 (by decide)⟩
